import Mathlib

/-!
Shallow embedding of the MedBlock access-control and patient-record routes:
the authenticate/authorize middleware (src/middleware/authMiddleware.js), the
patient list/detail/bulk-delete handlers and the patient schema methods
(src/models/Patient.js, patients router), the user-deletion handlers
(src/routes/users.js, src/routes/adminRoutes.js) and the professional
verification route (src/routes/adminRoutes.js), together with theorems
settling the behavioural claims about them.
-/

namespace MedBlock

/-- Calendar date as consumed by the age virtual (year, month, day). -/
structure Date where
  y : Int
  m : Int
  d : Int
deriving DecidableEq

/-- Allergy subdocument of the patient schema, reduced to the fields the routes read. -/
structure Allergy where
  allergen : String
  severity : String
deriving DecidableEq

/-- Medical-history subdocument of the patient schema. -/
structure MedCondition where
  condition : String
deriving DecidableEq

/-- Vital-signs subdocument of the patient schema. -/
structure VitalEntry where
  timestamp : Nat
deriving DecidableEq

/-- Address subdocument of the patient schema. -/
structure Address where
  street : String
  city : String
  county : String
  subCounty : String
  ward : String
deriving DecidableEq

/-- Patient document (patientSchema in src/models/Patient.js): the top-level
stored fields the embedded routes read or write. `oid` stands for the Mongo
`_id`; `patientId` is optional so that the generation branch of the pre-save
hook is expressible; `createdAt` and `updatedAt` are the fields maintained by
the schema option timestamps set to true, the former driving the default sort
of the list route and the latter bumped by Mongoose on every update. -/
structure Patient where
  oid : String
  patientId : Option String
  firstName : String
  lastName : String
  middleName : Option String
  dateOfBirth : Date
  gender : String
  nationalId : Option String
  address : Address
  phoneNumber : String
  email : Option String
  allergies : List Allergy
  medicalHistory : List MedCondition
  vitalSigns : List VitalEntry
  bloodType : String
  isActive : Bool
  isVerified : Bool
  createdBy : String
  updatedBy : Option String
  createdAt : Nat
  updatedAt : Nat
deriving DecidableEq

/-- Age virtual of the patient schema: year difference, minus one when the
birthday has not yet occurred in the current year. -/
def ageOn (today : Date) (birth : Date) : Int :=
  let base := today.y - birth.y
  let monthDiff := today.m - birth.m
  if monthDiff < 0 ∨ (monthDiff = 0 ∧ today.d < birth.d) then base - 1 else base

/-- Shape of the object returned by `patientSchema.methods.getSummary`. -/
structure PatientSummary where
  oid : String
  patientId : Option String
  fullName : String
  age : Int
  gender : String
  bloodType : String
  phoneNumber : String
  email : Option String
  county : String
  isActive : Bool
  isVerified : Bool
  allergies : Nat
  medicalHistory : Nat
  vitalSigns : Nat
deriving DecidableEq

/-- Method `patientSchema.methods.getSummary` (src/models/Patient.js lines
438-455): the record payload used by the patient list and detail responses.
The age virtual needs a current date, passed in explicitly here. -/
def getSummary (today : Date) (p : Patient) : PatientSummary :=
  { oid := p.oid
    patientId := p.patientId
    fullName := p.firstName ++ " " ++ p.lastName
    age := ageOn today p.dateOfBirth
    gender := p.gender
    bloodType := p.bloodType
    phoneNumber := p.phoneNumber
    email := p.email
    county := p.address.county
    isActive := p.isActive
    isVerified := p.isVerified
    allergies := p.allergies.length
    medicalHistory := p.medicalHistory.length
    vitalSigns := p.vitalSigns.length }

/-- Value of the longest leading run of decimal digits, or `none` when the
first character is not a digit (the NaN case of the JS parseInt). -/
def digitsLeadVal (l : List Char) : Option Nat :=
  let ds := l.takeWhile Char.isDigit
  if ds.isEmpty then none
  else some (ds.foldl (fun a c => a * 10 + (c.toNat - 48)) 0)

/-- JS `parseInt` on an optional query-string value; an absent value parses as
NaN, modelled as `none`. Hexadecimal radix detection is not modelled, as no
settled claim exercises it. -/
def parseIntJS : Option String → Option Int
  | none => none
  | some s =>
    match s.toList.dropWhile Char.isWhitespace with
    | '-' :: t => (digitsLeadVal t).map (fun n => -(n : Int))
    | '+' :: t => (digitsLeadVal t).map (fun n => (n : Int))
    | t => (digitsLeadVal t).map (fun n => (n : Int))

/-- JS `||` applied to a parsed number: NaN and 0 are falsy, so both fall back
to the default. -/
def jsOrInt (v : Option Int) (dflt : Int) : Int :=
  match v with
  | none => dflt
  | some n => if n = 0 then dflt else n

/-- Lookup of a query-string parameter; an absent key is `undefined`, that is
`none`. -/
def qget (qp : List (String × String)) (k : String) : Option String :=
  (qp.find? (fun e => e.1 == k)).map (fun e => e.2)

/-- Store query constructed by GET /api/v1/patients: only the five recognized
keys are consulted; any other query parameter is never read by the handler. -/
structure PatientQuery where
  search : Option String
  county : Option String
  gender : Option String
  bloodType : Option String
  isActive : Option Bool
deriving DecidableEq

/-- Query construction of the patient list route (patients router, the file
the claims cite as src/routes/auth.js lines 581-609). -/
def buildPatientQuery (qp : List (String × String)) : PatientQuery :=
  { search := qget qp "search"
    county := qget qp "county"
    gender := qget qp "gender"
    bloodType := qget qp "bloodType"
    isActive := (qget qp "isActive").map (fun s => s == "true") }

/-- Containment of `needle` as a contiguous run inside `hay`. -/
def charsContain (hay needle : List Char) : Bool :=
  match hay with
  | [] => needle.isEmpty
  | c :: t => needle.isPrefixOf (c :: t) || charsContain t needle

/-- Case-insensitive containment modelling `new RegExp(pattern, i-flag)`
applied to a field, for search patterns without regex metacharacters. -/
def regexTestCI (pattern field : String) : Bool :=
  charsContain (field.toList.map Char.toLower) (pattern.toList.map Char.toLower)

/-- Predicate semantics of the Mongo query built by the patient list route. -/
def patientMatches (q : PatientQuery) (p : Patient) : Bool :=
  (match q.search with
   | none => true
   | some s =>
     regexTestCI s p.firstName || regexTestCI s p.lastName ||
     regexTestCI s (p.patientId.getD "") || regexTestCI s (p.nationalId.getD "") ||
     regexTestCI s p.phoneNumber) &&
  (match q.county with | none => true | some c => p.address.county == c) &&
  (match q.gender with | none => true | some g => p.gender == g) &&
  (match q.bloodType with | none => true | some b => p.bloodType == b) &&
  (match q.isActive with | none => true | some b => p.isActive == b)

/-- Stable insertion step of the descending `createdAt` sort. -/
def insertByCreatedAtDesc (p : Patient) : List Patient → List Patient
  | [] => [p]
  | q :: t => if p.createdAt > q.createdAt then p :: q :: t else q :: insertByCreatedAtDesc p t

/-- Stable descending sort on `createdAt`, the default sort of the patient
list route. -/
def sortByCreatedAtDesc : List Patient → List Patient
  | [] => []
  | p :: t => insertByCreatedAtDesc p (sortByCreatedAtDesc t)

/-- Record-store read of the patient list route: filter, sort on `createdAt`
descending, then skip and limit. Negative skip or limit values never arise in
the settled claims; they clamp at zero here. -/
def findPatients (q : PatientQuery) (skip lim : Int) (store : List Patient) : List Patient :=
  ((sortByCreatedAtDesc (store.filter (patientMatches q))).drop skip.toNat).take lim.toNat

/-- Response of GET /api/v1/patients reduced to the fields the claims inspect. -/
structure PatientListResponse where
  status : Nat
  patients : List PatientSummary
  page : Int
  limit : Int
deriving DecidableEq

/-- Handler of GET /api/v1/patients. The role gate requireRole with the list
admin, doctor, nurse lives in middleware/auth.js, which is not among the
embedded sources; per the repository README it rejects any other role with
403, and the handler body below follows the src code: pagination via
`parseInt(..) || default`, query construction, find, then `getSummary` on
every returned record regardless of the caller role. -/
def patientsListHandler (role : String) (qp : List (String × String)) (today : Date)
    (store : List Patient) : PatientListResponse :=
  if (["admin", "doctor", "nurse"].contains role) = false then
    { status := 403, patients := [], page := 0, limit := 0 }
  else
    let page := jsOrInt (parseIntJS (qget qp "page")) 1
    let lim := jsOrInt (parseIntJS (qget qp "limit")) 20
    let skip := (page - 1) * lim
    let q := buildPatientQuery qp
    let found := findPatients q skip lim store
    { status := 200, patients := found.map (getSummary today), page := page, limit := lim }

/-- Mongoose `ObjectId.isValid` on a string input: a 24-character hexadecimal
string, or any 12-character string. -/
def isValidObjectIdStr (s : String) : Bool :=
  (s.length == 24 && s.toList.all (fun c => c.isDigit || "abcdefABCDEF".toList.contains c))
    || s.length == 12

/-- Handler of GET /api/v1/patients/:id: ObjectId format guard before any
store query, then findById with a 404 on absence. -/
def getPatientHandler (today : Date) (target : String) (store : List Patient) :
    Nat × Option PatientSummary :=
  if (isValidObjectIdStr target) = false then (400, none)
  else
    match store.find? (fun p => p.oid == target) with
    | none => (404, none)
    | some p => (200, some (getSummary today p))

/-- Handler of DELETE /api/v1/patients/bulk: HTTP status, resulting store, and
the invalidIds list surfaced in the response (absent when there is nothing to
report). Because the patient schema enables the timestamps option, Mongoose
adds an `updatedAt` assignment to the updateMany set payload, so every matched
document also receives the update time `now`. -/
def bulkDeleteHandler (ids : Option (List String)) (now : Nat) (store : List Patient) :
    Nat × List Patient × Option (List String) :=
  match ids with
  | none => (400, store, none)
  | some l =>
    if l.isEmpty then (400, store, none)
    else
      let valid := l.filter isValidObjectIdStr
      let invalid := l.filter (fun s => !isValidObjectIdStr s)
      if valid.isEmpty then (400, store, some invalid)
      else
        let updated := store.map
          (fun p => if valid.contains p.oid then { p with isActive := false, updatedAt := now } else p)
        (200, updated, if invalid.isEmpty then none else some invalid)

/-- JS truthiness of an optional string field: undefined and the empty string
are falsy. -/
def strTruthy : Option String → Bool
  | none => false
  | some s => !s.isEmpty

/-- JS `String.padStart(width, zero)`. -/
def padStartZeros (s : String) (width : Nat) : String :=
  String.mk (List.replicate (width - s.length) '0') ++ s

/-- Pre-save hook of the patient schema (src/models/Patient.js lines 406-416):
when `patientId` is not set, assign the letter P followed by the current
document count plus one, left-padded with zeros to 7 characters. -/
def preSaveAssignPatientId (countDocuments : Nat) (p : Patient) : Patient :=
  if strTruthy p.patientId then p
  else { p with patientId := some ("P" ++ padStartZeros (toString (countDocuments + 1)) 7) }

/-- Professional-verification subdocument of the User model as used by the
admin routes. -/
structure ProfessionalVerification where
  status : String
  rejectionReason : Option String
  notes : Option String
  submittedLicenseNumber : Option String
  licensingBody : Option String
  verificationDate : Option Nat
  verifiedBy : Option String
deriving DecidableEq

/-- User document restricted to the fields the embedded route handlers read or
write. The User model file itself is not among the embedded sources; the field
set is taken from its uses in src/middleware/authMiddleware.js,
src/routes/users.js and src/routes/adminRoutes.js. -/
structure UserRec where
  oid : String
  userId : String
  fullName : String
  role : String
  isActive : Bool
  password : Option String
  updatedBy : Option String
  updatedAt : Option Nat
  isGovernmentVerified : Bool
  professionalVerification : ProfessionalVerification
deriving DecidableEq

/-- Payload of a successfully verified JWT as read by the authenticate
middleware. -/
structure DecodedToken where
  userId : String
deriving DecidableEq

/-- Failure modes of `jwt.verify`: bad signature or expired credential. -/
inductive JwtError where
  | invalidSignature
  | expired
deriving DecidableEq

/-- Projection `select(-password)` applied when the authenticate middleware
loads the account. -/
def stripPassword (u : UserRec) : UserRec := { u with password := none }

/-- Outcome of the authenticate middleware: a 401 response, or `next()` with
the loaded account attached as `req.user`. -/
inductive AuthOutcome where
  | unauthorized
  | proceed (user : UserRec)
deriving DecidableEq

/-- Splitting on a character, as JS `String.split` does over the header. -/
def splitOnChar (c : Char) : List Char → List (List Char)
  | [] => [[]]
  | x :: t =>
    let r := splitOnChar c t
    if x = c then [] :: r
    else
      match r with
      | [] => [[x]]
      | g :: gs => (x :: g) :: gs

/-- Bearer-token extraction of the authenticate middleware: the header must be
present and start with the Bearer scheme token; the credential is the second
space-separated field. A missing second field makes `jwt.verify` throw, which
the middleware folds into the same 401 path, so it is `none` here. -/
def bearerToken : Option String → Option String
  | none => none
  | some h =>
    if "Bearer".toList.isPrefixOf h.toList then
      ((splitOnChar ' ' h.toList).map (fun l => String.mk l)).get? 1
    else none

/-- Middleware `authenticate` (src/middleware/authMiddleware.js lines 6-43).
`verify` abstracts `jwt.verify` under the server secret and `findById`
abstracts `User.findById`. Note the account lookup has no isActive condition. -/
def authenticate (verify : String → Except JwtError DecodedToken)
    (findById : String → Option UserRec) (authHeader : Option String) : AuthOutcome :=
  match bearerToken authHeader with
  | none => .unauthorized
  | some t =>
    match verify t with
    | .error _ => .unauthorized
    | .ok d =>
      match findById d.userId with
      | none => .unauthorized
      | some u => .proceed (stripPassword u)

/-- Decision of the authorize middleware. -/
inductive AuthzDecision where
  | misconfigured
  | forbidden
  | proceed
deriving DecidableEq

/-- Identity attached to the request context when authorize runs; `role` is
optional so that a missing role (JS falsy) is expressible. -/
structure RequestUser where
  oid : String
  role : Option String
deriving DecidableEq

/-- JS truthiness of the role field read by authorize. -/
def roleTruthy : Option String → Bool
  | none => false
  | some r => !r.isEmpty

/-- Middleware `authorize` (src/middleware/authMiddleware.js lines 46-67):
misconfiguration guard first, then role membership. -/
def authorize (roles : List String) (user : Option RequestUser) : AuthzDecision :=
  match user with
  | none => .misconfigured
  | some u =>
    match u.role with
    | none => .misconfigured
    | some r =>
      if r.isEmpty then .misconfigured
      else if roles.contains r then .proceed
      else .forbidden

/-- HTTP status written for each failing authorize decision. -/
def authzStatus : AuthzDecision → Option Nat
  | .misconfigured => some 500
  | .forbidden => some 403
  | .proceed => none

/-- The findOne matching of the user routes: the target parameter may be the
business userId or the Mongo id. -/
def findUserByEitherId (target : String) (store : List UserRec) : Option UserRec :=
  store.find? (fun u => u.userId == target || u.oid == target)

/-- Handler of DELETE /api/v1/users/:id (src/routes/users.js lines 308-350):
404 when the target is absent, 400 on self-target, soft delete otherwise. -/
def usersDeleteHandler (reqUserId target : String) (store : List UserRec) :
    Nat × List UserRec :=
  match findUserByEitherId target store with
  | none => (404, store)
  | some u =>
    if u.oid == reqUserId then (400, store)
    else
      (200, store.map (fun v =>
        if v.oid == u.oid then { v with isActive := false, updatedBy := some reqUserId } else v))

/-- Handler of DELETE /api/v1/admin/users/:id (src/routes/adminRoutes.js lines
156-186): safety check on req.user, 400 on self-target before the lookup, hard
delete via deleteOne otherwise. -/
def adminDeleteUserHandler (reqUser : Option UserRec) (target : String)
    (store : List UserRec) : Nat × List UserRec :=
  match reqUser with
  | none => (500, store)
  | some ru =>
    if ru.oid.isEmpty then (500, store)
    else if ru.oid == target then (400, store)
    else
      match store.find? (fun u => u.oid == target) with
      | none => (404, store)
      | some u => (200, store.filter (fun v => v.oid != u.oid))

/-- Request body of PATCH /api/v1/admin/users/:id/verify-professional; absent
keys are `none`. -/
structure VerifyBody where
  verificationStatus : Option String
  rejectionReason : Option String
  notes : Option String
  submittedLicenseNumber : Option String
  licensingBody : Option String
deriving DecidableEq

/-- Whitespace trim as applied by the express-validator trim sanitizer. -/
def trimString (s : String) : String :=
  String.mk (((s.toList.dropWhile Char.isWhitespace).reverse.dropWhile Char.isWhitespace).reverse)

/-- Sanitizers of the verify-professional validator chain: trim mutates the
body fields before the handler runs. -/
def sanitizeVerifyBody (b : VerifyBody) : VerifyBody :=
  { b with
    rejectionReason := b.rejectionReason.map trimString
    notes := b.notes.map trimString
    submittedLicenseNumber := b.submittedLicenseNumber.map trimString }

/-- Validators of the verify-professional route (src/routes/adminRoutes.js
lines 42-60). A chain marked optional is skipped entirely when its field is
absent from the body, so the custom rejection-reason check only runs when the
rejectionReason key is present. -/
def verifyBodyValid (b : VerifyBody) : Bool :=
  (match b.verificationStatus with
   | none => false
   | some s => ["verified", "rejected", "unsubmitted", "pending"].contains s) &&
  (match b.rejectionReason with
   | none => true
   | some r => !(b.verificationStatus == some "rejected" && r.isEmpty)) &&
  (match b.licensingBody with
   | none => true
   | some l => ["KMPDC", "NCK", "PPB", "other"].contains l)

/-- Field updates the verify-professional handler performs on the target user
(src/routes/adminRoutes.js lines 100-124). -/
def applyVerificationUpdate (adminId : String) (now : Nat) (b : VerifyBody) (u : UserRec) :
    UserRec :=
  let vs := b.verificationStatus.getD ""
  let pv0 := u.professionalVerification
  let pv1 : ProfessionalVerification :=
    { pv0 with
      status := vs
      rejectionReason := if vs == "rejected" then b.rejectionReason else none
      notes := b.notes
      submittedLicenseNumber :=
        match b.submittedLicenseNumber with
        | none => pv0.submittedLicenseNumber
        | some s => some s
      licensingBody :=
        match b.licensingBody with
        | none => pv0.licensingBody
        | some s => some s }
  if vs == "verified" then
    { u with
      professionalVerification := { pv1 with verificationDate := some now, verifiedBy := some adminId }
      isGovernmentVerified := true
      updatedBy := some adminId
      updatedAt := some now }
  else
    { u with
      professionalVerification := { pv1 with verificationDate := none, verifiedBy := none }
      isGovernmentVerified := false
      updatedBy := some adminId
      updatedAt := some now }

/-- Handler of PATCH /api/v1/admin/users/:id/verify-professional
(src/routes/adminRoutes.js lines 38-153): validation, ObjectId guard,
self-target guard, lookup, role restriction, then the status update. -/
def verifyProfessionalHandler (adminId target : String) (body : VerifyBody) (now : Nat)
    (store : List UserRec) : Nat × List UserRec :=
  let b := sanitizeVerifyBody body
  if (verifyBodyValid b) = false then (400, store)
  else if (isValidObjectIdStr target) = false then (400, store)
  else if adminId == target then (400, store)
  else
    match store.find? (fun u => u.oid == target) with
    | none => (404, store)
    | some u =>
      if (["doctor", "nurse"].contains u.role) = false then (400, store)
      else
        (200, store.map (fun v =>
          if v.oid == u.oid then applyVerificationUpdate adminId now b v else v))

/-- Specification predicate for the bulk-deactivation frame property: `q`
agrees with `p` on every stored field, except that `isActive` has been forced
to false and the schema-maintained `updatedAt` stamped with the update time
exactly when the id of `p` is among the requested valid ids. -/
def DeactivationFrame (validIds : List String) (now : Nat) (p q : Patient) : Prop :=
  q.oid = p.oid ∧ q.patientId = p.patientId ∧ q.firstName = p.firstName ∧
  q.lastName = p.lastName ∧ q.middleName = p.middleName ∧
  q.dateOfBirth = p.dateOfBirth ∧ q.gender = p.gender ∧
  q.nationalId = p.nationalId ∧ q.address = p.address ∧
  q.phoneNumber = p.phoneNumber ∧ q.email = p.email ∧
  q.allergies = p.allergies ∧ q.medicalHistory = p.medicalHistory ∧
  q.vitalSigns = p.vitalSigns ∧ q.bloodType = p.bloodType ∧
  q.isVerified = p.isVerified ∧ q.createdBy = p.createdBy ∧
  q.updatedBy = p.updatedBy ∧ q.createdAt = p.createdAt ∧
  q.isActive = (if validIds.contains p.oid then false else p.isActive) ∧
  q.updatedAt = (if validIds.contains p.oid then now else p.updatedAt)

/-- Fixed calendar date used to evaluate the age virtual in concrete runs. -/
def sampleToday : Date := { y := 2026, m := 10, d := 11 }

/-- Concrete address for the sample records. -/
def sampleAddress : Address :=
  { street := "Moi Ave", city := "Nairobi", county := "Nairobi",
    subCounty := "Westlands", ward := "Parklands" }

/-- Concrete patient with the documented sample phone number and email. -/
def samplePatient : Patient :=
  { oid := "aaaaaaaaaaaaaaaaaaaaaaaa"
    patientId := some "P0000001"
    firstName := "John"
    lastName := "Doe"
    middleName := none
    dateOfBirth := { y := 1990, m := 5, d := 15 }
    gender := "male"
    nationalId := some "12345678"
    address := sampleAddress
    phoneNumber := "+254712345678"
    email := some "john.doe@example.com"
    allergies := []
    medicalHistory := []
    vitalSigns := []
    bloodType := "O+"
    isActive := true
    isVerified := false
    createdBy := "cccccccccccccccccccccccc"
    updatedBy := none
    createdAt := 7
    updatedAt := 7 }

/-- Sample patient lacking a patientId, for the pre-save hook. -/
def samplePatientNoId : Patient :=
  { samplePatient with patientId := none, oid := "dddddddddddddddddddddddd" }

/-- Second sample patient, untargeted in the bulk-delete run. -/
def samplePatientB : Patient :=
  { samplePatient with
    oid := "bbbbbbbbbbbbbbbbbbbbbbbb"
    phoneNumber := "0712345679"
    email := none
    createdAt := 3 }

/-- Empty professional-verification subdocument. -/
def samplePV : ProfessionalVerification :=
  { status := "pending", rejectionReason := none, notes := none,
    submittedLicenseNumber := none, licensingBody := none,
    verificationDate := none, verifiedBy := none }

/-- Concrete admin account. -/
def sampleAdmin : UserRec :=
  { oid := "eeeeeeeeeeeeeeeeeeeeeeee", userId := "MB-ADM-001", fullName := "Alex Admin",
    role := "admin", isActive := true, password := some "hashed", updatedBy := none,
    updatedAt := none, isGovernmentVerified := false, professionalVerification := samplePV }

/-- Concrete doctor account. -/
def sampleDoctor : UserRec :=
  { sampleAdmin with
    oid := "ffffffffffffffffffffffff"
    userId := "MB-DOC-001"
    fullName := "Dana Doc"
    role := "doctor" }

/-- The doctor account after deactivation. -/
def sampleInactiveUser : UserRec := { sampleDoctor with isActive := false }

/-- Concrete stand-in for `jwt.verify`: accepts exactly one token string. -/
def demoVerify : String → Except JwtError DecodedToken :=
  fun t => if t = "valid.jwt.token" then .ok { userId := "ffffffffffffffffffffffff" }
           else .error .invalidSignature

/-- Concrete stand-in for `User.findById` over a store holding one deactivated
account. -/
def demoFindInactive : String → Option UserRec :=
  fun i => if i = "ffffffffffffffffffffffff" then some sampleInactiveUser else none

/-- Body that sets the status to rejected while omitting the rejectionReason
key. -/
def rejectedNoReasonBody : VerifyBody :=
  { verificationStatus := some "rejected", rejectionReason := none, notes := none,
    submittedLicenseNumber := none, licensingBody := none }

/-- Claim C1: the patient list payload is built with `getSummary` for every
permitted role including nurse, and `getSummary` copies `phoneNumber` and
`email` through unchanged, so the value returned for those fields equals the
raw stored value — the masking the claim describes does not happen. -/
theorem patient_list_payload_is_unmasked :
    ∀ (today : Date) (store : List Patient),
      (patientsListHandler "nurse" [] today store).patients
        = (findPatients (buildPatientQuery []) 0 20 store).map (getSummary today)
      ∧ ∀ p : Patient,
          (getSummary today p).phoneNumber = p.phoneNumber
          ∧ (getSummary today p).email = p.email := by
  intro today store
  exact ⟨rfl, fun p => ⟨rfl, rfl⟩⟩

/-- Claim C5: a limit of 500 is accepted and applied as-is with HTTP 200, and
a page of 0 is silently replaced by the default 1 — the listing never fails
with 400 on out-of-range or invalid pagination values. -/
theorem pagination_not_validated :
    (patientsListHandler "admin" [("limit", "500")] sampleToday []).status = 200
    ∧ (patientsListHandler "admin" [("limit", "500")] sampleToday []).limit = 500
    ∧ (patientsListHandler "admin" [("page", "0")] sampleToday []).status = 200
    ∧ (patientsListHandler "admin" [("page", "0")] sampleToday []).page = 1 := by
  decide

/-- Claim C6: an unknown query parameter named foo is silently dropped: the
constructed store query is identical with and without it, and the request
succeeds with HTTP 200 instead of failing with 400 naming the key. -/
theorem unknown_filter_silently_dropped :
    buildPatientQuery [("foo", "bar")] = buildPatientQuery []
    ∧ (patientsListHandler "admin" [("foo", "bar")] sampleToday [samplePatient]).status = 200 := by
  decide

/-- Claim C3, counterexample: an admin self-delete through the admin route is
answered with HTTP 400, not the 403 the claim states, at a concrete input. -/
theorem self_target_returns_400_not_403 :
    (adminDeleteUserHandler (some sampleAdmin) "eeeeeeeeeeeeeeeeeeeeeeee" [sampleAdmin]).1 = 400
    ∧ ((adminDeleteUserHandler (some sampleAdmin) "eeeeeeeeeeeeeeeeeeeeeeee" [sampleAdmin]).1
        == 403) = false
    ∧ (adminDeleteUserHandler (some sampleAdmin) "eeeeeeeeeeeeeeeeeeeeeeee" [sampleAdmin]).2
        = [sampleAdmin] := by
  decide

/-- Claim C4, counterexample: a valid token referencing a deactivated account
is accepted — authenticate attaches the account (minus password) and proceeds
instead of failing with 401 as the claim states for inactive accounts. -/
theorem inactive_account_passes_authenticate :
    sampleInactiveUser.isActive = false
    ∧ authenticate demoVerify demoFindInactive (some "Bearer valid.jwt.token")
        = .proceed (stripPassword sampleInactiveUser) := by
  decide

/-- Claim C7: a body that sets the status to rejected while omitting the
rejectionReason key passes validation (the optional chain skips the custom
check) and the update stores status rejected with no stored reason — the
request does not fail validation as the claim and the validator message
require. -/
theorem rejected_without_reason_accepted :
    verifyBodyValid (sanitizeVerifyBody rejectedNoReasonBody) = true
    ∧ (verifyProfessionalHandler "eeeeeeeeeeeeeeeeeeeeeeee" "ffffffffffffffffffffffff"
        rejectedNoReasonBody 9 [sampleDoctor]).1 = 200
    ∧ ((verifyProfessionalHandler "eeeeeeeeeeeeeeeeeeeeeeee" "ffffffffffffffffffffffff"
        rejectedNoReasonBody 9 [sampleDoctor]).2.map
          (fun u => (u.professionalVerification.status, u.professionalVerification.rejectionReason)))
      = [("rejected", none)] := by
  decide

/-- Claim C2: authorize fails ServerMisconfigured (500) exactly when no user
or no truthy role is attached, and then never allows; fails Forbidden (403)
exactly when an attached role is not in the permitted set; and proceeds
exactly when the attached role is in the permitted set. The two failure
statuses are distinct. -/
theorem authorize_decision_spec :
    ∀ (roles : List String) (user : Option RequestUser),
      (authorize roles user = .misconfigured
        ↔ user = none ∨ ∃ u, user = some u ∧ roleTruthy u.role = false)
      ∧ (authorize roles user = .forbidden
        ↔ ∃ u r, user = some u ∧ u.role = some r ∧ r.isEmpty = false ∧ r ∉ roles)
      ∧ (authorize roles user = .proceed
        ↔ ∃ u r, user = some u ∧ u.role = some r ∧ r.isEmpty = false ∧ r ∈ roles)
      ∧ authzStatus .misconfigured = some 500
      ∧ authzStatus .forbidden = some 403
      ∧ ((500 : Nat) == 403) = false := by
  intro roles user
  refine ⟨?_, ?_, ?_, rfl, rfl, by decide⟩ <;>
    cases user with
    | none => simp [authorize]
    | some u =>
      cases hr : u.role with
      | none => simp [authorize, hr, roleTruthy]
      | some r =>
        by_cases he : r.isEmpty
        · simp [authorize, hr, roleTruthy, he]
        · by_cases hc : r ∈ roles
          · simp [authorize, hr, roleTruthy, he, hc]
          · simp [authorize, hr, roleTruthy, he, hc]

/-- Claim C3, amended: a self-targeted no-self-target mutation is blocked with
HTTP 400 (not 403) and leaves the user store unchanged, across DELETE
/api/v1/users/:id, DELETE /api/v1/admin/users/:id and PATCH
/api/v1/admin/users/:id/verify-professional. -/
theorem self_target_guards_block_with_400 :
    ∀ (a : String) (ru u : UserRec) (store : List UserRec) (body : VerifyBody) (now : Nat),
      ru.oid = a → ru.oid.isEmpty = false →
      findUserByEitherId a store = some u → u.oid = a →
      usersDeleteHandler a a store = (400, store)
      ∧ adminDeleteUserHandler (some ru) a store = (400, store)
      ∧ verifyProfessionalHandler a a body now store = (400, store) := by
  intro a ru u store body now hru hne hfind hid
  refine ⟨?_, ?_, ?_⟩
  · simp [usersDeleteHandler, hfind, hid]
  · have hne2 : a.isEmpty = false := hru ▸ hne
    simp [adminDeleteUserHandler, hru, hne2]
  · simp only [verifyProfessionalHandler]
    by_cases h1 : verifyBodyValid (sanitizeVerifyBody body)
    · by_cases h2 : isValidObjectIdStr a
      · simp [h1, h2]
      · simp [h1, h2]
    · simp [h1]

/-- Claim C3, amended, at a concrete input: the three self-targeted mutations
all answer 400 and leave the store as it was. -/
theorem self_target_guards_block_with_400_witness :
    usersDeleteHandler "eeeeeeeeeeeeeeeeeeeeeeee" "eeeeeeeeeeeeeeeeeeeeeeee" [sampleAdmin]
        = (400, [sampleAdmin])
    ∧ adminDeleteUserHandler (some sampleAdmin) "eeeeeeeeeeeeeeeeeeeeeeee" [sampleAdmin]
        = (400, [sampleAdmin])
    ∧ verifyProfessionalHandler "eeeeeeeeeeeeeeeeeeeeeeee" "eeeeeeeeeeeeeeeeeeeeeeee"
        rejectedNoReasonBody 5 [sampleAdmin] = (400, [sampleAdmin]) :=
  self_target_guards_block_with_400 "eeeeeeeeeeeeeeeeeeeeeeee" sampleAdmin sampleAdmin
    [sampleAdmin] rejectedNoReasonBody 5 (by decide) (by decide) (by decide) (by decide)

/-- Claim C4, amended: authenticate fails with 401 and attaches nothing
exactly when the header is absent, the scheme is not Bearer, the credential is
missing or fails verification (bad signature or expired), or the referenced
account does not exist; in every other case it attaches the account minus its
password and proceeds. Whether the account is active plays no part. -/
theorem authenticate_characterization :
    ∀ (verify : String → Except JwtError DecodedToken)
      (findById : String → Option UserRec) (header : Option String),
      (authenticate verify findById header = .unauthorized
        ↔ ¬ ∃ t d a, bearerToken header = some t ∧ verify t = Except.ok d
            ∧ findById d.userId = some a)
      ∧ ∀ u : UserRec,
          authenticate verify findById header = .proceed u
            ↔ ∃ t d a, bearerToken header = some t ∧ verify t = Except.ok d
                ∧ findById d.userId = some a ∧ u = stripPassword a := by
  intro verify findById header
  cases hb : bearerToken header with
  | none =>
    exact ⟨by simp [authenticate, hb], fun u => by simp [authenticate, hb]⟩
  | some t =>
    cases hv : verify t with
    | error e =>
      exact ⟨by simp [authenticate, hb, hv], fun u => by simp [authenticate, hb, hv]⟩
    | ok d =>
      cases hf : findById d.userId with
      | none =>
        exact ⟨by simp [authenticate, hb, hv, hf], fun u => by simp [authenticate, hb, hv, hf]⟩
      | some a =>
        refine ⟨by simp [authenticate, hb, hv, hf], fun u => ?_⟩
        simp [authenticate, hb, hv, hf, eq_comm]

/-- Claim C8: the patient detail route answers 400 exactly when the identifier
is malformed — independently of the store contents — and 404 exactly when the
identifier is well-formed but no patient carries it; the two cases never
coincide. -/
theorem get_patient_malformed_vs_missing :
    ∀ (today : Date) (target : String) (store : List Patient),
      ((getPatientHandler today target store).1 = 400 ↔ isValidObjectIdStr target = false)
      ∧ ((getPatientHandler today target store).1 = 404
        ↔ isValidObjectIdStr target = true
          ∧ store.find? (fun p => p.oid == target) = none)
      ∧ ((getPatientHandler today target store).1 = 400
        ↔ (getPatientHandler today target []).1 = 400) := by
  intro today target store
  by_cases hv : isValidObjectIdStr target
  · cases hf : store.find? (fun p => p.oid == target) with
    | none => simp [getPatientHandler, hv, hf]
    | some p => simp [getPatientHandler, hv, hf]
  · simp [getPatientHandler, hv]

/-- Claim C9, counterexample: the patient schema enables timestamps, so the
updateMany of the bulk route also bumps updatedAt on the matched patient — a
field other than isActive changes, against the claim that only isActive is
set. At the concrete input the matched patient had updatedAt 7 and leaves the
operation with updatedAt 99. -/
theorem bulk_delete_changes_more_than_isActive :
    ((bulkDeleteHandler (some ["aaaaaaaaaaaaaaaaaaaaaaaa"]) 99 [samplePatient]).2.1.map
        (fun p => p.updatedAt)) = [99]
    ∧ (samplePatient.updatedAt == 99) = false
    ∧ (bulkDeleteHandler (some ["aaaaaaaaaaaaaaaaaaaaaaaa"]) 99 [samplePatient]).1 = 200 := by
  decide

/-- A map that forces isActive to false and stamps updatedAt on the listed ids
realizes the deactivation frame relation pointwise. -/
theorem deactivationFrame_map (v : List String) (now : Nat) :
    ∀ store : List Patient,
      List.Forall₂ (DeactivationFrame v now)
        store (store.map
          (fun p => if v.contains p.oid then { p with isActive := false, updatedAt := now } else p)) := by
  intro store
  induction store with
  | nil => exact List.Forall₂.nil
  | cons p t ih =>
    refine List.Forall₂.cons ?_ ih
    by_cases h : p.oid ∈ v
    · simp [DeactivationFrame, h]
    · simp [DeactivationFrame, h]

/-- Claim C9, amended: bulk delete sets isActive to false and the
schema-maintained updatedAt stamp on exactly the patients whose id is among
the syntactically valid requested ids, changing no other field and no other
patient; invalid ids are filtered out and reported back; and when no valid id
is supplied the request fails with 400 and the store is untouched. -/
theorem bulk_delete_soft_deactivation :
    ∀ (ids : List String) (now : Nat) (store : List Patient),
      ids ≠ [] →
      (ids.filter isValidObjectIdStr = [] →
        bulkDeleteHandler (some ids) now store
          = (400, store, some (ids.filter (fun s => !isValidObjectIdStr s))))
      ∧ (ids.filter isValidObjectIdStr ≠ [] →
        (bulkDeleteHandler (some ids) now store).1 = 200
        ∧ List.Forall₂ (DeactivationFrame (ids.filter isValidObjectIdStr) now)
            store (bulkDeleteHandler (some ids) now store).2.1
        ∧ (bulkDeleteHandler (some ids) now store).2.2
            = (if ids.filter (fun s => !isValidObjectIdStr s) = [] then none
               else some (ids.filter (fun s => !isValidObjectIdStr s)))) := by
  intro ids now store hne
  have hne' : ids.isEmpty = false := by
    cases ids with
    | nil => exact absurd rfl hne
    | cons a t => rfl
  constructor
  · intro hv
    have hve : (ids.filter isValidObjectIdStr).isEmpty = true := by simp [hv]
    simp [bulkDeleteHandler, hne', hve]
  · intro hv
    have hve : (ids.filter isValidObjectIdStr).isEmpty = false := by
      cases hh : ids.filter isValidObjectIdStr with
      | nil => exact absurd hh hv
      | cons a t => rfl
    refine ⟨?_, ?_, ?_⟩
    · simp [bulkDeleteHandler, hne', hve]
    · simpa [bulkDeleteHandler, hne', hve] using
        deactivationFrame_map (ids.filter isValidObjectIdStr) now store
    · by_cases hi : ids.filter (fun s => !isValidObjectIdStr s) = []
      · simp [bulkDeleteHandler, hne', hve, hi]
      · have hie : (ids.filter (fun s => !isValidObjectIdStr s)).isEmpty = false := by
          cases hh : ids.filter (fun s => !isValidObjectIdStr s) with
          | nil => exact absurd hh hi
          | cons a t => rfl
        simp [bulkDeleteHandler, hne', hve, hi, hie]

/-- Claim C9, amended, at a concrete input: one valid and one invalid id over
a two-patient store succeeds with 200. -/
theorem bulk_delete_soft_deactivation_witness :
    (["aaaaaaaaaaaaaaaaaaaaaaaa", "not-an-objectid-string"] ≠ ([] : List String))
    ∧ (bulkDeleteHandler (some ["aaaaaaaaaaaaaaaaaaaaaaaa", "not-an-objectid-string"]) 99
        [samplePatient, samplePatientB]).1 = 200 :=
  ⟨by decide,
    ((bulk_delete_soft_deactivation ["aaaaaaaaaaaaaaaaaaaaaaaa", "not-an-objectid-string"] 99
      [samplePatient, samplePatientB] (by decide)).2 (by decide)).1⟩

/-- Claim C10: the pre-save hook assigns the letter P followed by the document
count plus one, zero-padded to 7 characters, when patientId is unset, and
leaves the record untouched when a nonempty patientId is already present. -/
theorem presave_patient_id_generation :
    ∀ (count : Nat) (p : Patient),
      (p.patientId = none →
        (preSaveAssignPatientId count p).patientId
          = some ("P" ++ padStartZeros (toString (count + 1)) 7))
      ∧ (∀ s, p.patientId = some s → s.isEmpty = false →
        preSaveAssignPatientId count p = p) := by
  intro count p
  constructor
  · intro h
    simp [preSaveAssignPatientId, strTruthy, h]
  · intro s hs hne
    simp [preSaveAssignPatientId, strTruthy, hs, hne]

/-- Claim C10 at concrete inputs: with 41 existing documents an unset
patientId becomes P0000042, and a preset patientId is kept. -/
theorem presave_patient_id_generation_witness :
    (preSaveAssignPatientId 41 samplePatientNoId).patientId = some "P0000042"
    ∧ preSaveAssignPatientId 41 samplePatient = samplePatient := by
  constructor
  · have h := (presave_patient_id_generation 41 samplePatientNoId).1 rfl
    rw [h]
    decide
  · exact (presave_patient_id_generation 41 samplePatient).2 "P0000001" rfl (by decide)

end MedBlock
